import Mathlib

/-!
Verification of the podman builder plugin's container-lifecycle core:
the Communicator (remote command execution, upload/download via tar
streams over `podman cp`) and the Pull/Run pipeline steps.

Each definition is a shallow embedding of the corresponding Go function
in `builder/podman/` (file and line references in the doc comments).
-/

namespace PodmanPlugin

/-! ## Process exit and wait-status model

Models the outcome of the `podman exec` subprocess and the Linux
`syscall.WaitStatus` encoding used by `Communicator.run`
(communicator.go lines 326-351). -/

/-- How the exec subprocess terminated: a normal exit with a code
(0-255 on Linux) or termination by a signal (1-127). -/
inductive ProcessExit where
| normal (code : Nat)
| signaled (sig : Nat)
deriving DecidableEq

/-- Linux wait-status word for a process exit: a normal exit stores the
code in bits 8-15 with the low 7 bits zero; a signal exit stores the
signal number in the low 7 bits. -/
def waitStatusOf : ProcessExit → Nat
| .normal code => code % 256 * 256
| .signaled sig => sig % 128

/-- Go `syscall.WaitStatus.ExitStatus()` on Linux: the exit code when
the low 7 bits are zero (process exited), otherwise -1. -/
def waitStatusExitStatus (w : Nat) : Int :=
  if w % 128 = 0 then Int.ofNat (w / 256 % 256) else -1

/-- Result of Go's `cmd.Wait()` as observed by `Communicator.run`:
`ok` (nil error) or an `exec.ExitError` whose `Sys()` is a
`syscall.WaitStatus` when the platform facility is available. -/
inductive WaitResult where
| ok
| exitErr (sys : Option Nat)
deriving DecidableEq

/-- Behaviour of Go's `cmd.Wait()`: returns nil exactly when the
process exited normally with code 0; otherwise an `exec.ExitError`
carrying the platform wait status when available. -/
def goCmdWait (pe : ProcessExit) (sysAvailable : Bool) : WaitResult :=
  if pe = ProcessExit.normal 0 then WaitResult.ok
  else WaitResult.exitErr (if sysAvailable then some (waitStatusOf pe) else none)

/-- Exit-status derivation in `Communicator.run` (communicator.go
lines 326-348): `exitStatus` starts at 0; on an `exec.ExitError` it is
set to 1 and then to `status.ExitStatus()` when `Sys()` yields a
`syscall.WaitStatus`. -/
def runExitStatus : WaitResult → Int
| .ok => 0
| .exitErr none => 1
| .exitErr (some w) => waitStatusExitStatus w

/-- Status published to the RemoteCmd's exit-status cell by
`Communicator.run`: 254 when `cmd.Start()` fails (communicator.go
lines 320-324), otherwise the wait-derived status (line 351). -/
def runPublishedStatus (spawnOk : Bool) (w : WaitResult) : Int :=
  if spawnOk = false then 254 else runExitStatus w

/-! ## Communicator.Start: synchronous pipe setup, asynchronous run -/

/-- Outcome of `Communicator.Start` (communicator.go lines 33-77):
a pipe-creation failure is returned synchronously; otherwise `run` is
launched on a goroutine and Start returns nil. -/
inductive StartOutcome where
| pipeError
| startedAsync
deriving DecidableEq

/-- `Communicator.Start` pipe setup (communicator.go lines 58-76):
stdin, stderr and stdout pipes are created in turn, each failure
returned synchronously; on success the command runs asynchronously. -/
def commStart (stdinPipeOk stderrPipeOk stdoutPipeOk : Bool) : StartOutcome :=
  if stdinPipeOk = false then StartOutcome.pipeError
  else if stderrPipeOk = false then StartOutcome.pipeError
  else if stdoutPipeOk = false then StartOutcome.pipeError
  else StartOutcome.startedAsync

/-! ## Claim C1 -/

/-- Claim C1: the exit status published to the RemoteCmd's cell equals
0 iff the exec process exited normally with code 0 (for valid Linux
codes < 256 and signals in 1..127); a signal or nonzero exit never
publishes 0, and when the wait-status facility is unavailable the
published status defaults to 1. -/
theorem c1_exit_status_zero_iff_normal_zero (pe : ProcessExit) (sysAvailable : Bool)
    (hcode : ∀ c, pe = ProcessExit.normal c → c < 256)
    (hsig : ∀ s, pe = ProcessExit.signaled s → 0 < s ∧ s < 128) :
    (runPublishedStatus true (goCmdWait pe sysAvailable) = 0 ↔ pe = ProcessExit.normal 0)
    ∧ (sysAvailable = false → pe ≠ ProcessExit.normal 0 →
        runPublishedStatus true (goCmdWait pe sysAvailable) = 1) := by
  cases pe with
  | normal c =>
    by_cases hc : c = 0
    · subst hc
      refine ⟨by simp [runPublishedStatus, goCmdWait, runExitStatus], ?_⟩
      intro _ h
      exact absurd rfl h
    · have hlt : c < 256 := hcode c rfl
      have hg : goCmdWait (ProcessExit.normal c) sysAvailable
          = WaitResult.exitErr (if sysAvailable = true then some (c % 256 * 256) else none) := by
        simp [goCmdWait, waitStatusOf, hc]
      cases sysAvailable with
      | false =>
        rw [hg]
        exact ⟨by simp [runPublishedStatus, runExitStatus, hc], fun _ _ => rfl⟩
      | true =>
        have hmod : c % 256 = c := Nat.mod_eq_of_lt hlt
        have hw : waitStatusExitStatus (c % 256 * 256) = Int.ofNat c := by
          rw [hmod]
          unfold waitStatusExitStatus
          rw [if_pos (by omega)]
          congr 1
          omega
        refine ⟨?_, fun hfalse => by simp at hfalse⟩
        simp [runPublishedStatus, goCmdWait, runExitStatus, waitStatusOf, hc, hw]
  | signaled s =>
    have hs : 0 < s ∧ s < 128 := hsig s rfl
    have hg : goCmdWait (ProcessExit.signaled s) sysAvailable
        = WaitResult.exitErr (if sysAvailable = true then some (s % 128) else none) := by
      simp [goCmdWait, waitStatusOf]
    cases sysAvailable with
    | false =>
      rw [hg]
      exact ⟨by simp [runPublishedStatus, runExitStatus], fun _ _ => rfl⟩
    | true =>
      have hw : waitStatusExitStatus (s % 128) = -1 := by
        unfold waitStatusExitStatus
        rw [if_neg (by omega)]
      refine ⟨?_, fun hfalse => by simp at hfalse⟩
      simp [runPublishedStatus, goCmdWait, runExitStatus, waitStatusOf, hw]

/-- Witness for C1 at a signal exit (signal 9, facility available). -/
theorem c1_exit_status_zero_iff_normal_zero_witness :
    (runPublishedStatus true (goCmdWait (ProcessExit.signaled 9) true) = 0
        ↔ ProcessExit.signaled 9 = ProcessExit.normal 0)
    ∧ (true = false → ProcessExit.signaled 9 ≠ ProcessExit.normal 0 →
        runPublishedStatus true (goCmdWait (ProcessExit.signaled 9) true) = 1) :=
  c1_exit_status_zero_iff_normal_zero (ProcessExit.signaled 9) true
    (by intro c h; cases h) (by intro s h; cases h; omega)

/-! ## Claim C9 -/

/-- Claim C9: when all three stdio pipes are created successfully,
Start returns nil (no synchronous error) regardless of whether the
subprocess later spawns; a spawn failure is reported only by
publishing the fixed status 254 to the exit-status cell. -/
theorem c9_spawn_failure_async_254 (w : WaitResult) :
    commStart true true true = StartOutcome.startedAsync
    ∧ runPublishedStatus false w = 254 := by
  exact ⟨rfl, rfl⟩

/-- Witness for C9 at the nil wait result. -/
theorem c9_spawn_failure_async_254_witness :
    commStart true true true = StartOutcome.startedAsync
    ∧ runPublishedStatus false WaitResult.ok = 254 :=
  c9_spawn_failure_async_254 WaitResult.ok

/-! ## Serialization of remote commands (Communicator.run lock discipline)

`Communicator.run` (communicator.go lines 294-352) executes, in program
order: `c.lock.Lock()` (line 297, with `defer c.lock.Unlock()` on line
298), `cmd.Start()` (line 320), `cmd.Wait()` (line 338, after the
stream copiers join), and the deferred unlock on return. -/

/-- Phases of one `Communicator.run` invocation, in the order the
source performs them. -/
inductive RunPhase where
| lockAcquire
| spawnProcess
| waitProcess
| lockRelease
deriving DecidableEq

/-- Program-order index of each phase inside `Communicator.run`:
lock (line 297) before spawn (line 320) before wait (line 338) before
the deferred unlock (line 298). -/
def runPhaseIndex : RunPhase → Nat
| .lockAcquire => 0
| .spawnProcess => 1
| .waitProcess => 2
| .lockRelease => 3

/-- Interleaved execution of any number of `run` invocations against
one Communicator: `time i a` is the global timestamp at which
invocation `i` performs phase `a`. `program_order` reflects the
statement order inside `run`; `mutex_exclusive` reflects that
`c.lock` is a `sync.Mutex`, so the critical sections of two distinct
invocations cannot overlap. -/
structure RunSchedule where
  time : Nat → RunPhase → Nat
  program_order : ∀ i a b, runPhaseIndex a < runPhaseIndex b → time i a < time i b
  mutex_exclusive : ∀ i j, i ≠ j →
    time i RunPhase.lockRelease < time j RunPhase.lockAcquire
    ∨ time j RunPhase.lockRelease < time i RunPhase.lockAcquire

/-- Claim C2: under the mutex discipline of `Communicator.run`, if
invocation `i` spawns its process before invocation `j` does, then
`i`'s wait has already completed before `j`'s process is spawned:
commands are fully serialized. -/
theorem c2_commands_serialized (s : RunSchedule) (i j : Nat) (hij : i ≠ j)
    (h : s.time i RunPhase.spawnProcess < s.time j RunPhase.spawnProcess) :
    s.time i RunPhase.waitProcess < s.time j RunPhase.spawnProcess := by
  have hwu : s.time i RunPhase.waitProcess < s.time i RunPhase.lockRelease :=
    s.program_order i RunPhase.waitProcess RunPhase.lockRelease (by decide)
  have hlsj : s.time j RunPhase.lockAcquire < s.time j RunPhase.spawnProcess :=
    s.program_order j RunPhase.lockAcquire RunPhase.spawnProcess (by decide)
  have hlsi : s.time i RunPhase.lockAcquire < s.time i RunPhase.spawnProcess :=
    s.program_order i RunPhase.lockAcquire RunPhase.spawnProcess (by decide)
  have hsuj : s.time j RunPhase.spawnProcess < s.time j RunPhase.lockRelease :=
    s.program_order j RunPhase.spawnProcess RunPhase.lockRelease (by decide)
  rcases s.mutex_exclusive i j hij with hm | hm
  · omega
  · omega

/-- Fully sequential schedule used to witness C2: invocation `i` runs
its four phases at times `4*i .. 4*i+3`. -/
def serialSchedule : RunSchedule where
  time i a := 4 * i + runPhaseIndex a
  program_order := by
    intro i a b hab
    show 4 * i + runPhaseIndex a < 4 * i + runPhaseIndex b
    omega
  mutex_exclusive := by
    intro i j hij
    rcases Nat.lt_or_ge i j with hlt | hge
    · left
      show 4 * i + runPhaseIndex RunPhase.lockRelease < 4 * j + runPhaseIndex RunPhase.lockAcquire
      simp only [runPhaseIndex]
      omega
    · right
      have hlt : j < i := Nat.lt_of_le_of_ne hge (fun he => hij he.symm)
      show 4 * j + runPhaseIndex RunPhase.lockRelease < 4 * i + runPhaseIndex RunPhase.lockAcquire
      simp only [runPhaseIndex]
      omega

/-- Witness for C2 on the sequential two-command schedule. -/
theorem c2_commands_serialized_witness :
    serialSchedule.time 0 RunPhase.waitProcess < serialSchedule.time 1 RunPhase.spawnProcess :=
  c2_commands_serialized serialSchedule 0 1 (by decide) (by decide)

/-! ## Which Communicator operations touch the lock (claim C3)

Primitive effect sequences of each Communicator operation, read off
the source. Only `run` ever touches `c.lock`; `Upload`, `uploadFile`,
`uploadReader`, `UploadDir` and `Download` never mention it. -/

/-- Primitive effects a Communicator operation can perform. -/
inductive CommAction where
| lockAcquire
| lockRelease
| pipeSetup
| spawnProcess
| streamCopy
| waitProcess
| setExited
| tarWriteEntry
| tarReadEntry
| fixOwner
| tempFileSpool
deriving DecidableEq

/-- Effect sequence of `Communicator.run` (communicator.go lines
294-352): lock, launch stdout/stderr copiers, start the process, join
copiers and wait, publish the exit status, deferred unlock. -/
def runActions : List CommAction :=
  [CommAction.lockAcquire, CommAction.streamCopy, CommAction.spawnProcess,
   CommAction.waitProcess, CommAction.setExited, CommAction.lockRelease]

/-- Effect sequence of `Communicator.uploadFile` (communicator.go lines
124-182): pipe setup, spawn `podman cp`, write the tar entry, copy the
body, wait, optional ownership fix. No lock operation appears. -/
def uploadFileActions : List CommAction :=
  [CommAction.pipeSetup, CommAction.spawnProcess, CommAction.tarWriteEntry,
   CommAction.streamCopy, CommAction.waitProcess, CommAction.fixOwner]

/-- Effect sequence of `Communicator.uploadReader` (communicator.go
lines 88-121): spool the reader to a temp file, then upload it as a
file. -/
def uploadReaderActions : List CommAction :=
  CommAction.tempFileSpool :: uploadFileActions

/-- `Communicator.Upload` (communicator.go lines 80-85): dispatches on
whether file metadata was supplied. -/
def uploadActions (hasFileInfo : Bool) : List CommAction :=
  if hasFileInfo then uploadFileActions else uploadReaderActions

/-- Effect sequence of `Communicator.UploadDir` (communicator.go lines
184-236): pipe setup, spawn `podman cp`, wait, optional ownership fix.
No lock operation appears. -/
def uploadDirActions : List CommAction :=
  [CommAction.pipeSetup, CommAction.spawnProcess, CommAction.waitProcess,
   CommAction.fixOwner]

/-- Effect sequence of `Communicator.Download` (communicator.go lines
241-287): pipe setup, spawn `podman cp`, read the tar entry, copy the
body, wait. No lock operation appears. -/
def downloadActions : List CommAction :=
  [CommAction.pipeSetup, CommAction.spawnProcess, CommAction.tarReadEntry,
   CommAction.streamCopy, CommAction.waitProcess]

/-- Counterexample to C3: none of Upload (either path), UploadDir or
Download ever performs a lock acquisition; the serializing lock is
taken only by `run`. -/
theorem c3_counterexample_transfers_never_lock :
    CommAction.lockAcquire ∉ uploadActions true
    ∧ CommAction.lockAcquire ∉ uploadActions false
    ∧ CommAction.lockAcquire ∉ uploadDirActions
    ∧ CommAction.lockAcquire ∉ downloadActions := by
  decide

/-- Claim C3 (amended): only the remote-command streaming task `run`
acquires the Communicator's lock, holding it from before spawn until
after wait; Upload, UploadDir and Download never acquire the lock, so
transfers are not serialized against in-flight remote commands by that
lock. -/
theorem c3_only_run_locks :
    runActions.head? = some CommAction.lockAcquire
    ∧ runActions.getLast? = some CommAction.lockRelease
    ∧ CommAction.spawnProcess ∈ runActions
    ∧ CommAction.waitProcess ∈ runActions
    ∧ CommAction.lockAcquire ∉ uploadActions true
    ∧ CommAction.lockAcquire ∉ uploadActions false
    ∧ CommAction.lockAcquire ∉ uploadDirActions
    ∧ CommAction.lockAcquire ∉ downloadActions := by
  decide

/-! ## StepPull.Run (claim C4) -/

/-- Step outcome, `multistep.ActionContinue` / `multistep.ActionHalt`. -/
inductive StepAction where
| actionContinue
| actionHalt
deriving DecidableEq

/-- Driver calls StepPull.Run can make, in the order they happen. -/
inductive DriverCall where
| loginCall
| logoutCall
| pullCall
deriving DecidableEq

/-- Observable outcome of one `StepPull.Run` invocation: the sequence
of driver calls made, the returned step action, and whether an error
was recorded in the state bag. -/
structure PullOutcome where
  calls : List DriverCall
  action : StepAction
  errorRecorded : Bool
deriving DecidableEq

/-- `StepPull.Run` (step_pull source, lines 388-437 of the combined
communicator.go listing): if pull is disabled, continue immediately;
if login is configured, `driver.Login` runs first, a failure records
the error and halts before any pull, and on success
`defer driver.Logout` guarantees exactly one logout when Run returns;
then `driver.Pull` runs, a failure records the error and halts. The
deferred logout fires after the pull on every return path. -/
def stepPullRun (pullEnabled loginEnabled loginOk pullOk : Bool) : PullOutcome :=
  if pullEnabled = false then
    { calls := [], action := StepAction.actionContinue, errorRecorded := false }
  else if loginEnabled then
    if loginOk = false then
      { calls := [DriverCall.loginCall], action := StepAction.actionHalt,
        errorRecorded := true }
    else if pullOk then
      { calls := [DriverCall.loginCall, DriverCall.pullCall, DriverCall.logoutCall],
        action := StepAction.actionContinue, errorRecorded := false }
    else
      { calls := [DriverCall.loginCall, DriverCall.pullCall, DriverCall.logoutCall],
        action := StepAction.actionHalt, errorRecorded := true }
  else if pullOk then
    { calls := [DriverCall.pullCall], action := StepAction.actionContinue,
      errorRecorded := false }
  else
    { calls := [DriverCall.pullCall], action := StepAction.actionHalt,
      errorRecorded := true }

/-- Claim C4: with pull and login enabled, a failing login halts with
the error recorded and no pull attempted; every pull is preceded by
the login; and whenever login succeeds, exactly one logout call is
made before Run returns, whether or not the pull succeeds. -/
theorem c4_login_logout_pairing (loginOk pullOk : Bool) :
    (loginOk = false →
      (stepPullRun true true loginOk pullOk).calls = [DriverCall.loginCall]
      ∧ (stepPullRun true true loginOk pullOk).action = StepAction.actionHalt
      ∧ (stepPullRun true true loginOk pullOk).errorRecorded = true)
    ∧ (DriverCall.pullCall ∈ (stepPullRun true true loginOk pullOk).calls →
      (stepPullRun true true loginOk pullOk).calls.indexOf DriverCall.loginCall
        < (stepPullRun true true loginOk pullOk).calls.indexOf DriverCall.pullCall)
    ∧ (loginOk = true →
      ((stepPullRun true true loginOk pullOk).calls.count DriverCall.logoutCall = 1)) := by
  cases loginOk <;> cases pullOk <;> decide

/-- Witness for C4: a successful login followed by a failing pull
still yields exactly one logout, and a failed login attempts no pull. -/
theorem c4_login_logout_pairing_witness :
    (stepPullRun true true true false).calls.count DriverCall.logoutCall = 1
    ∧ (stepPullRun true true false true).calls = [DriverCall.loginCall] :=
  ⟨(c4_login_logout_pairing true false).2.2 rfl,
   ((c4_login_logout_pairing false true).1 rfl).1⟩

/-! ## StepRun.Cleanup (claim C5) -/

/-- Portion of the multistep state bag relevant here: string-valued
keys. -/
def StateBag : Type := List (String × String)

/-- Lookup of a key in the state bag. -/
def bagGet (bag : StateBag) (k : String) : Option String :=
  (List.find? (fun p => p.1 = k) bag).map (fun p => p.2)

/-- `state.Put`: replaces or inserts a key. -/
def bagPut (bag : StateBag) (k v : String) : StateBag :=
  (k, v) :: List.filter (fun p => ¬ p.1 = k) bag

/-- Mutable field of `StepRun` (step_run.go line 12): the recorded
container handle. -/
structure StepRunState where
  containerId : String
deriving DecidableEq

/-- Recording done by `StepRun.Run` after a successful start
(step_run.go lines 55-59): the handle goes into the step's field and
into the bag under `container_id` and `instance_id`. -/
def stepRunRecord (cid : String) (bag : StateBag) : StepRunState × StateBag :=
  ({ containerId := cid }, bagPut (bagPut bag "container_id" cid) "instance_id" cid)

/-- `StepRun.Cleanup` (step_run.go lines 64-82): if no handle was
recorded, return immediately; otherwise call `driver.KillContainer`
once with the handle (its error is ignored, so the result is the same
whether the kill fails or not) and clear the step's field. The state
bag is only read (driver, ui), never written. Result: the step state
after cleanup, the state bag after cleanup, and the list of kill calls
made. -/
def stepRunCleanup (s : StepRunState) (bag : StateBag) (killFails : Bool) :
    StepRunState × StateBag × List String :=
  if s.containerId = "" then (s, bag, [])
  else ({ containerId := "" }, bag, [s.containerId])

/-- Counterexample to C5: after Run recorded handle "c1" and Cleanup
ran, the bag's `container_id` key does not hold the empty string (it
still holds "c1": Cleanup never writes the bag). -/
theorem c5_counterexample_bag_not_cleared :
    ¬ (bagGet (stepRunCleanup (stepRunRecord "c1" []).1 (stepRunRecord "c1" []).2 false).2.1
        "container_id" = some "") := by
  decide

/-- Claim C5 (amended): Cleanup with a recorded handle issues exactly
one kill for that handle whether or not the kill fails, clears the
step's recorded handle so a second Cleanup performs no kill, performs
no kill when no handle was recorded, and leaves the state bag
unchanged — in particular the bag's `container_id` key keeps its old
value rather than becoming the empty string. -/
theorem c5_cleanup_idempotent_kill_once (cid : String) (bag : StateBag) (k1 k2 : Bool)
    (h : cid ≠ "") :
    stepRunCleanup { containerId := cid } bag k1 = ({ containerId := "" }, bag, [cid])
    ∧ (stepRunCleanup (stepRunCleanup { containerId := cid } bag k1).1 bag k2).2.2 = []
    ∧ stepRunCleanup { containerId := "" } bag k1 = ({ containerId := "" }, bag, [])
    ∧ bagGet (stepRunCleanup { containerId := cid } bag k1).2.1 "container_id"
        = bagGet bag "container_id" := by
  have h1 : stepRunCleanup { containerId := cid } bag k1 = ({ containerId := "" }, bag, [cid]) := by
    unfold stepRunCleanup
    rw [if_neg h]
  refine ⟨h1, ?_, rfl, ?_⟩
  · rw [h1]
    show (stepRunCleanup { containerId := "" } bag k2).2.2 = []
    unfold stepRunCleanup
    rw [if_pos rfl]
  · rw [h1]

/-- Witness for C5 at handle "c1" and a bag holding that handle. -/
theorem c5_cleanup_idempotent_kill_once_witness :
    stepRunCleanup { containerId := "c1" } [("container_id", "c1")] false
      = ({ containerId := "" }, [("container_id", "c1")], ["c1"])
    ∧ (stepRunCleanup
        (stepRunCleanup { containerId := "c1" } [("container_id", "c1")] false).1
        [("container_id", "c1")] true).2.2 = []
    ∧ stepRunCleanup { containerId := "" } [("container_id", "c1")] false
        = ({ containerId := "" }, [("container_id", "c1")], [])
    ∧ bagGet (stepRunCleanup { containerId := "c1" } [("container_id", "c1")] false).2.1
        "container_id"
      = bagGet [("container_id", "c1")] "container_id" :=
  c5_cleanup_idempotent_kill_once "c1" [("container_id", "c1")] false true (by decide)

/-! ## Communicator.Download (claim C6) -/

/-- `Communicator.Download` (communicator.go lines 241-287), after a
successful pipe setup and start, as a function of the backend's
observable behaviour: the list of tar entry bodies on stdout, whether
reading stderr succeeds, the stderr text, and whether `Wait` succeeds.
Result: the bytes written to the destination writer and the error, if
any. When `archive.Next()` finds no header, the captured stderr text
is preferred as the error when it is non-empty; otherwise the generic
tar-header error is returned. When an entry is present, its body (the
first entry only) is copied to the destination before `Wait`. -/
def download (entries : List (List Nat)) (stderrReadOk : Bool) (stderrOut : String)
    (waitOk : Bool) : List Nat × Option String :=
  match entries with
  | [] =>
    if stderrReadOk = true ∧ stderrOut ≠ "" then
      ([], some ("Error downloading file: " ++ stderrOut))
    else
      ([], some "Failed to read header from tar stream")
  | body :: _ =>
    if waitOk then (body, none)
    else (body, some "Failed to download from container")

/-- Claim C6: with no archive entry, Download errors with the captured
stderr text when that text is non-empty, and only otherwise with the
generic tar-header error; with an entry present, exactly the first
entry's body is written to the destination. -/
theorem c6_download_first_entry_or_stderr (entries : List (List Nat)) (stderrReadOk : Bool)
    (stderrOut : String) (waitOk : Bool) :
    (entries = [] → stderrReadOk = true → stderrOut ≠ "" →
      download entries stderrReadOk stderrOut waitOk
        = ([], some ("Error downloading file: " ++ stderrOut)))
    ∧ (entries = [] → ¬ (stderrReadOk = true ∧ stderrOut ≠ "") →
      download entries stderrReadOk stderrOut waitOk
        = ([], some "Failed to read header from tar stream"))
    ∧ (∀ body rest, entries = body :: rest →
      (download entries stderrReadOk stderrOut waitOk).1 = body) := by
  refine ⟨?_, ?_, ?_⟩
  · intro he hr hs
    subst he
    unfold download
    rw [if_pos ⟨hr, hs⟩]
  · intro he hn
    subst he
    unfold download
    rw [if_neg hn]
  · intro body rest he
    subst he
    unfold download
    cases waitOk with
    | false => rfl
    | true => rfl

/-- Witness for C6: a backend with stderr text "no such file" and no
entries yields that text as the error; a backend with one entry
[7, 8] yields [7, 8] at the destination. -/
theorem c6_download_first_entry_or_stderr_witness :
    download [] true "no such file" true
      = ([], some ("Error downloading file: " ++ "no such file"))
    ∧ (download [[7, 8]] true "" true).1 = [7, 8] :=
  ⟨(c6_download_first_entry_or_stderr [] true "no such file" true).1 rfl rfl (by decide),
   (c6_download_first_entry_or_stderr [[7, 8]] true "" true).2.2 [7, 8] [] rfl⟩

/-! ## Communicator.UploadDir source-path handling (claims C7, C10) -/

/-- Source argument passed to `podman cp` by `Communicator.UploadDir`
(communicator.go lines 206-209): `src[len(src)-1]` is read
unconditionally, so the empty source path panics (modelled as `none`);
otherwise a trailing "." is appended exactly when the last character
is '/'. -/
def uploadDirPodmanSource (src : String) : Option String :=
  match src.data.getLast? with
  | none => none
  | some c => if c = '/' then some (src ++ ".") else some src

/-- Claim C7: for a non-empty source path, the source passed to
`podman cp` carries the trailing contents marker exactly when the path
ends with '/': it becomes `src ++ "."` in that case and is passed
unchanged otherwise. -/
theorem c7_upload_dir_contents_marker (src : String) (h : src ≠ "") :
    (src.data.getLast? = some '/' → uploadDirPodmanSource src = some (src ++ "."))
    ∧ (src.data.getLast? ≠ some '/' → uploadDirPodmanSource src = some src) := by
  have hd : src.data ≠ [] := by
    intro hnil
    apply h
    cases src with
    | mk l => cases hnil; rfl
  rcases hl : src.data.getLast? with _ | c
  · exact absurd (List.getLast?_eq_none_iff.mp hl) hd
  · constructor
    · intro hslash
      have hc : c = '/' := Option.some.inj hslash
      simp [uploadDirPodmanSource, hl, hc]
    · intro hnot
      have hc : ¬ c = '/' := fun he => hnot (by rw [he])
      simp [uploadDirPodmanSource, hl, hc]

/-- Witness for C7 at "data/" (marker appended) via the theorem, and
at "data" (passed unchanged). -/
theorem c7_upload_dir_contents_marker_witness :
    uploadDirPodmanSource "data/" = some ("data/" ++ ".")
    ∧ uploadDirPodmanSource "data" = some "data" :=
  ⟨(c7_upload_dir_contents_marker "data/" (by decide)).1 (by decide),
   (c7_upload_dir_contents_marker "data" (by decide)).2 (by decide)⟩

/-- Claim C10: UploadDir indexes the last byte of the source before
anything else, so the empty source path is undefined (a panic),
modelled as `none`; every non-empty source path yields a defined
`podman cp` source argument. -/
theorem c10_upload_dir_empty_source_panics :
    uploadDirPodmanSource "" = none
    ∧ ∀ src : String, src ≠ "" → (uploadDirPodmanSource src).isSome = true := by
  constructor
  · rfl
  · intro src h
    have hd : src.data ≠ [] := by
      intro hnil
      apply h
      cases src with
      | mk l => cases hnil; rfl
    rcases hl : src.data.getLast? with _ | c
    · exact absurd (List.getLast?_eq_none_iff.mp hl) hd
    · by_cases hc : c = '/'
      · simp [uploadDirPodmanSource, hl, hc]
      · simp [uploadDirPodmanSource, hl, hc]

/-- Witness for C10: the empty path is undefined, "x" is defined. -/
theorem c10_upload_dir_empty_source_panics_witness :
    uploadDirPodmanSource "" = none ∧ (uploadDirPodmanSource "x").isSome = true :=
  ⟨c10_upload_dir_empty_source_panics.1,
   c10_upload_dir_empty_source_panics.2 "x" (by decide)⟩

/-! ## Communicator.uploadFile (claim C8)

`uploadFile` (communicator.go lines 124-182) runs
`podman cp - <containerID>:<filepath.Dir(dst)>`, then streams a tar
archive into its stdin: one header whose `Name` is set to
`filepath.Base(dst)` (line 150), the file body, and the archive close.
Go's `path/filepath` functions are modelled below for Unix paths. -/

/-- Element-processing loop of Go `filepath.Clean` (Unix): empty and
"." components are dropped; ".." pops the previous component unless it
is itself ".." (kept for unrooted paths, dropped at the root of rooted
paths); other components are pushed. The stack is kept reversed. -/
def goCleanLoop (rooted : Bool) : List String → List String → List String
| stack, [] => stack
| stack, comp :: rest =>
  if comp = "" ∨ comp = "." then goCleanLoop rooted stack rest
  else if comp = ".." then
    match stack with
    | [] => if rooted then goCleanLoop rooted [] rest else goCleanLoop rooted [".."] rest
    | top :: tail =>
      if top = ".." then goCleanLoop rooted (".." :: stack) rest
      else goCleanLoop rooted tail rest
  else goCleanLoop rooted (comp :: stack) rest

/-- Go `filepath.Clean` for Unix paths: "" cleans to ".", components
are processed by `goCleanLoop`, and a rooted path keeps its leading
'/'. -/
def goClean (path : String) : String :=
  if path = "" then "."
  else
    let rooted := path.data.head? == some '/'
    let stack := goCleanLoop rooted [] (path.splitOn "/")
    let joined := String.intercalate "/" stack.reverse
    if rooted then "/" ++ joined
    else if joined = "" then "." else joined

/-- Go `filepath.Base` for Unix paths: "" gives ".", trailing slashes
are removed, the part after the last '/' is kept, and an all-slash
path gives "/". -/
def goBase (path : String) : String :=
  if path = "" then "."
  else
    let trimmed := (path.data.reverse.dropWhile (fun c => c == '/')).reverse
    if trimmed = [] then "/"
    else String.mk (trimmed.reverse.takeWhile (fun c => c != '/')).reverse

/-- Go `filepath.Dir` for Unix paths: everything up to and including
the final '/', cleaned; a path without '/' gives ".". -/
def goDir (path : String) : String :=
  goClean (String.mk (path.data.reverse.dropWhile (fun c => c != '/')).reverse)

/-- Writes performed on the tar stream piped into `podman cp`. -/
inductive TarAction where
| writeHeader (name : String)
| writeBody (bytes : List Nat)
| closeStream
deriving DecidableEq

/-- Tar writes performed by `uploadFile` (communicator.go lines
145-163): one header named `filepath.Base(dst)`, the source bytes,
and the archive close. -/
def uploadFileTarActions (dst : String) (src : List Nat) : List TarAction :=
  [TarAction.writeHeader (goBase dst), TarAction.writeBody src, TarAction.closeStream]

/-- Arguments of the `podman cp` invocation built by `uploadFile`
(communicator.go lines 128-129): copy from stdin into
`<containerID>:<filepath.Dir(dst)>`. -/
def uploadFileCpArgs (cid dst : String) : List String :=
  ["cp", "-", cid ++ ":" ++ goDir dst]

/-- Entries of the tar stream produced by a write sequence: a header
opens an entry, body writes append to the open entry, the next header
or the close finalizes it. -/
def tarEntriesAux : Option (String × List Nat) → List TarAction → List (String × List Nat)
| none, [] => []
| some e, [] => [e]
| none, TarAction.writeHeader n :: rest => tarEntriesAux (some (n, [])) rest
| some e, TarAction.writeHeader n :: rest => e :: tarEntriesAux (some (n, [])) rest
| none, TarAction.writeBody _ :: rest => tarEntriesAux none rest
| some (n, acc), TarAction.writeBody bs :: rest => tarEntriesAux (some (n, acc ++ bs)) rest
| none, TarAction.closeStream :: rest => tarEntriesAux none rest
| some e, TarAction.closeStream :: rest => e :: tarEntriesAux none rest

/-- Entries of a tar write sequence, starting with no open entry. -/
def tarEntries (acts : List TarAction) : List (String × List Nat) :=
  tarEntriesAux none acts

/-- Claim C8: the archive streamed by a file upload holds exactly one
entry — named the base name of the destination path, with the source
bytes as body, and no synthesized directory entries — and the copy
invocation targets the directory component of the destination inside
the bound container. -/
theorem c8_upload_archive_single_entry (cid dst : String) (src : List Nat) :
    tarEntries (uploadFileTarActions dst src) = [(goBase dst, src)]
    ∧ (tarEntries (uploadFileTarActions dst src)).length = 1
    ∧ uploadFileCpArgs cid dst = ["cp", "-", cid ++ ":" ++ goDir dst] :=
  ⟨rfl, rfl, rfl⟩

/-- Witness for C8 at container "c1", destination "/tmp/out.txt" and a
two-byte body. -/
theorem c8_upload_archive_single_entry_witness :
    tarEntries (uploadFileTarActions "/tmp/out.txt" [1, 2]) = [(goBase "/tmp/out.txt", [1, 2])]
    ∧ (tarEntries (uploadFileTarActions "/tmp/out.txt" [1, 2])).length = 1
    ∧ uploadFileCpArgs "c1" "/tmp/out.txt" = ["cp", "-", "c1" ++ ":" ++ goDir "/tmp/out.txt"] :=
  c8_upload_archive_single_entry "c1" "/tmp/out.txt" [1, 2]

end PodmanPlugin
